import Mathlib

/-!
Verification of the catalog aggregation and caching layer of the
stremio-letterboxd addon backend.

The development shallowly embeds, in Lean, the parts of the TypeScript
source that the specified properties are about:

* the catalog transformers of `catalog.service.ts`
  (`transformToStremioMeta`, `transformWatchlistToMetas`,
  `transformLogEntryToMeta`, `transformLogEntriesToMetas`,
  `transformListEntryToMeta`, `transformListEntriesToMetas`,
  `transformActivityItemToMeta`, `transformActivityToMetas`,
  `getImdbId`, `getPosterUrl`, `buildPosterUrl`);
* the catalog fetch / cache orchestration of `stremio.routes.ts`
  (`parseExtra`, `parseSortAndSkip`, `shuffleArray`, the cache keys and
  pagination loops of `fetchWatchlistCatalog`, `fetchLikedFilmsCatalog`,
  `fetchDiaryCatalog`, `fetchFriendsCatalog`,
  `fetchPopularCatalogPublic`, `fetchWatchlistCatalogPublic`,
  the dispatch / failure handling of `handleCatalogRequest`, the mutation
  route handlers, and `createClientForUser`);
* the sort label table `SORT_LABEL_TO_API` of `stremio.service.ts`.

External collaborators (the Letterboxd HTTP client, the lru-cache
package, the SQLite user store, URI encoding) are modelled as explicit
oracles / state records.  JavaScript peculiarities that the source relies
on (truthiness of `0`, `""` and `undefined`; `Array.prototype.slice`;
first-two-segment `split('=')`) are modelled explicitly where they occur.
-/

/-! ## JavaScript-modelling primitives -/

/-- Models the JavaScript template interpolation of a boolean
(`${showRatings}` renders as `"true"` / `"false"`). -/
def jsBoolString (b : Bool) : String :=
  if b then "true" else "false"

/-- Models `Array.prototype.slice(start, stop)` for non-negative indices:
the elements at positions `start ≤ i < stop`. -/
def jsSlice {α : Type} (l : List α) (start stop : Nat) : List α :=
  (l.drop start).take (stop - start)

/-- Split a character list at a separator character, keeping empty
segments — the behaviour of `String.prototype.split` with a one-character
separator (`"a&&b".split('&') = ["a", "", "b"]`, `"".split('&') =
[""]`). -/
def jsSplitCharGo (sep : Char) (acc : List Char) : List Char → List String
  | [] => [String.mk acc.reverse]
  | c :: rest =>
    if c == sep then String.mk acc.reverse :: jsSplitCharGo sep [] rest
    else jsSplitCharGo sep (c :: acc) rest

/-- Models `s.split(sep)` for a one-character separator. -/
def jsSplitChar (s : String) (sep : Char) : List String :=
  jsSplitCharGo sep [] s.data

/-- Models `decodeURIComponent`.  URI decoding is an external JS builtin;
the catalog logic never depends on percent-escapes, so it is modelled as
the identity. -/
def decodeURIComponent (s : String) : String := s

/-- Models `parseInt(s, 10)` restricted to the values that occur in the
catalog routes: `none` stands for `NaN` (no leading digits), otherwise
the value of the leading run of decimal digits, with an optional minus
sign. -/
def jsParseInt (s : String) : Option Int :=
  let core : List Char → Option Nat := fun cs =>
    let ds := cs.takeWhile Char.isDigit
    if ds.isEmpty then none
    else some (ds.foldl (fun acc c => 10 * acc + (c.toNat - 48)) 0)
  match s.data with
  | '-' :: rest => (core rest).map (fun n => -(n : Int))
  | cs => (core cs).map (fun n => (n : Int))

/-- Models `'x'.repeat(n)` for a single-character string. -/
def jsRepeatChar (c : Char) (n : Nat) : String :=
  String.mk (List.replicate n c)

/-- Models `encodeURIComponent`; like `decodeURIComponent` it is an
external JS builtin modelled as the identity. -/
def encodeURIComponent (s : String) : String := s

/-- Models `rating.toFixed(1)` for the non-negative ratings that occur
(multiples of 0.5 between 0 and 5). -/
def jsToFixed1 (r : ℚ) : String :=
  let n : Int := ⌊r * 10 + 1 / 2⌋
  toString (n / 10) ++ "." ++ toString (n % 10)

/-- Models `serverConfig.publicUrl` (deployment configuration, out of
scope; any fixed string works for the properties proved here). -/
def publicUrl : String := "https://addon.example"

/-! ## Upstream record shapes (letterboxd.client.ts interfaces)

Only the fields the transformers read are modelled. -/

/-- A film link as delivered by the upstream API (`film.links`). -/
structure FilmLink where
  ltype : String
  id : String
  deriving DecidableEq, Repr

/-- One poster size variant (`poster.sizes[i]`). -/
structure PosterSize where
  width : Nat
  url : String
  deriving DecidableEq, Repr

/-- A poster with its size variants. -/
structure FilmPoster where
  sizes : List PosterSize
  deriving DecidableEq, Repr

/-- A genre record; the transformers read only `name`. -/
structure FilmGenre where
  name : String
  deriving DecidableEq, Repr

/-- A contributor record; the transformers read only `name`. -/
structure FilmDirector where
  name : String
  deriving DecidableEq, Repr

/-- Upstream watchlist / films-endpoint film record (`WatchlistFilm`).
`rating` is the member rating attached by the films endpoint; `none`
models an absent (`undefined`) field. -/
structure WatchlistFilm where
  id : String
  name : String
  releaseYear : Option Nat := none
  poster : Option FilmPoster := none
  links : List FilmLink := []
  rating : Option ℚ := none
  genres : Option (List FilmGenre) := none
  directors : Option (List FilmDirector) := none
  runTime : Option Nat := none
  deriving DecidableEq, Repr

/-- A review body (`entry.review`). -/
structure FilmReview where
  lbml : String
  containsSpoilers : Bool := false
  deriving DecidableEq, Repr

/-- Upstream log-entry film record (`LogEntryFilm`). -/
structure LogEntryFilm where
  id : String
  name : String
  releaseYear : Option Nat := none
  poster : Option FilmPoster := none
  links : List FilmLink := []
  genres : Option (List FilmGenre) := none
  directors : Option (List FilmDirector) := none
  deriving DecidableEq, Repr

/-- Upstream diary/log entry (`LogEntry`). -/
structure LogEntry where
  film : LogEntryFilm
  rating : Option ℚ := none
  like : Bool := false
  diaryDate : Option String := none
  review : Option FilmReview := none
  deriving DecidableEq, Repr

/-- Upstream list entry (`ListEntry`); `rank` is present for ranked
lists. -/
structure ListEntry where
  film : WatchlistFilm
  rank : Option Int := none
  deriving DecidableEq, Repr

/-- The member that an activity item is attributed to. -/
structure ActivityMember where
  id : String
  username : String
  displayName : Option String := none
  deriving DecidableEq, Repr

/-- Diary details nested in a diary-entry activity. -/
structure DiaryDetails where
  diaryDate : Option String := none
  deriving DecidableEq, Repr

/-- The diary entry nested in a `DiaryEntryActivity` item. -/
structure ActivityDiaryEntry where
  film : Option WatchlistFilm := none
  like : Bool := false
  rating : Option ℚ := none
  diaryDetails : Option DiaryDetails := none
  review : Option FilmReview := none
  deriving DecidableEq, Repr

/-- Upstream activity-feed item (`ActivityItem`). -/
structure ActivityItem where
  atype : String
  member : ActivityMember
  film : Option WatchlistFilm := none
  diaryEntry : Option ActivityDiaryEntry := none
  rating : Option ℚ := none
  deriving DecidableEq, Repr

/-! ## Normalized catalog item (`StremioMeta`) -/

/-- The normalized catalog item returned to the addon protocol
(`StremioMeta` in catalog.service.ts).  The `type` field of the source is
the constant string `"movie"` and is omitted. -/
structure StremioMeta where
  id : String
  name : String
  poster : Option String := none
  year : Option Nat := none
  genres : Option (List String) := none
  director : Option (List String) := none
  runtime : Option String := none
  description : Option String := none
  deriving DecidableEq, Repr

/-! ## Catalog transformers (catalog.service.ts) -/

/-- `getImdbId`: extract the IMDb id from the film's links
(`film.links?.find(l => l.type === 'imdb')?.id ?? null`). -/
def getImdbId (film : WatchlistFilm) : Option String :=
  (film.links.find? (fun link => link.ltype == "imdb")).map (fun link => link.id)

/-- `getPosterUrl`: prefer the size variant of width exactly 300, else
fall back to the last listed variant
(`film.poster.sizes[film.poster.sizes.length - 1]`). -/
def getPosterUrl (film : WatchlistFilm) : Option String :=
  match film.poster with
  | none => none
  | some poster =>
    if poster.sizes.isEmpty then none
    else
      match poster.sizes.find? (fun s => s.width == 300) with
      | some preferred => some preferred.url
      | none => poster.sizes.getLast?.map (fun s => s.url)

/-- `buildPosterUrl`: rewrite the poster to the rating-badge proxy URL
when a poster and a truthy rating are present (`!rating` is true in JS
for both `undefined` and `0`). -/
def buildPosterUrl (originalPoster : Option String) (rating : Option ℚ) : Option String :=
  match originalPoster, rating with
  | none, _ => none
  | some p, none => some p
  | some p, some r =>
    if r = 0 then some p
    else some (publicUrl ++ "/poster?url=" ++ encodeURIComponent p ++ "&rating=" ++ jsToFixed1 r)

/-- `transformToStremioMeta`: one watchlist film to one catalog item, or
`none` when no IMDb id can be extracted. -/
def transformToStremioMeta (film : WatchlistFilm) (showRatings : Bool) : Option StremioMeta :=
  match getImdbId film with
  | none => none
  | some imdbId =>
    some
      { id := imdbId
        name := film.name
        poster := if showRatings then buildPosterUrl (getPosterUrl film) film.rating else getPosterUrl film
        year := film.releaseYear
        genres := film.genres.map (fun gs => gs.map (fun g => g.name))
        director := film.directors.map (fun ds => ds.map (fun d => d.name))
        runtime := match film.runTime with
          | some n => if n ≠ 0 then some (toString n ++ " min") else none
          | none => none }

/-- `transformWatchlistToMetas`: the accumulation loop over a batch of
watchlist films.  The source pushes every non-null per-item transform;
there is no deduplication in this function. -/
def transformWatchlistToMetas (films : List WatchlistFilm) (showRatings : Bool) : List StremioMeta :=
  match films with
  | [] => []
  | film :: rest =>
    match transformToStremioMeta film showRatings with
    | some meta => meta :: transformWatchlistToMetas rest showRatings
    | none => transformWatchlistToMetas rest showRatings

/-- `getLogEntryImdbId`: IMDb id from a log-entry film's links. -/
def getLogEntryImdbId (film : LogEntryFilm) : Option String :=
  (film.links.find? (fun link => link.ltype == "imdb")).map (fun link => link.id)

/-- `getLogEntryPosterUrl`: same selection rule as `getPosterUrl`, for
log-entry films. -/
def getLogEntryPosterUrl (film : LogEntryFilm) : Option String :=
  match film.poster with
  | none => none
  | some poster =>
    if poster.sizes.isEmpty then none
    else
      match poster.sizes.find? (fun s => s.width == 300) with
      | some preferred => some preferred.url
      | none => poster.sizes.getLast?.map (fun s => s.url)

/-- `formatStarsOnly`: `"★★★★½"`-style glyph string for a rating. -/
def formatStarsOnly (rating : ℚ) : String :=
  let full : Nat := (⌊rating⌋).toNat
  let half : String := if rating - ⌊rating⌋ ≥ 1 / 2 then "½" else ""
  jsRepeatChar '★' full ++ half

/-- Month names used by `formatDiaryDate`. -/
def diaryMonths : List String :=
  ["Jan", "Feb", "Mar", "Apr", "May", "Jun", "Jul", "Aug", "Sep", "Oct", "Nov", "Dec"]

/-- `formatDiaryDate`: `"2024-01-15"` to `"15 Jan 2024"`, returning the
input unchanged when it does not split into three non-empty parts or the
month is out of range. -/
def formatDiaryDate (isoDate : String) : String :=
  match jsSplitChar isoDate '-' with
  | year :: month :: day :: _ =>
    if year = "" ∨ month = "" ∨ day = "" then isoDate
    else
      match jsParseInt month with
      | none => isoDate
      | some m =>
        if m < 1 then isoDate
        else
          match diaryMonths.get? (m.toNat - 1) with
          | none => isoDate
          | some monthName =>
            let dayStr := match jsParseInt day with
              | some d => toString d
              | none => "NaN"
            dayStr ++ " " ++ monthName ++ " " ++ year
  | _ => isoDate

/-- `transformLogEntryToMeta`: one diary/log entry to one catalog item
with a contextual description, or `none` when no IMDb id exists.  (The
source also writes the IMDb→Letterboxd id mapping into a long-TTL cache;
that side effect is on a cache instance unrelated to the collections and
is not modelled.) -/
def transformLogEntryToMeta (entry : LogEntry) (showRatings : Bool) : Option StremioMeta :=
  match getLogEntryImdbId entry.film with
  | none => none
  | some imdbId =>
    let descParts : List String :=
      (if entry.like then ["♥ Liked"] else []) ++
      (match entry.rating with
        | some r => if r ≠ 0 then ["My rating " ++ formatStarsOnly r] else []
        | none => []) ++
      (match entry.diaryDate with
        | some d => [formatDiaryDate d]
        | none => [])
    let baseDescription : Option String :=
      if descParts.isEmpty then none else some (String.intercalate " · " descParts)
    let description : Option String :=
      match entry.review with
      | some review =>
        let excerpt :=
          if review.lbml.length > 100 then String.mk (review.lbml.data.take 100) ++ "…"
          else review.lbml
        match baseDescription with
        | some d => some (d ++ "\n\"" ++ excerpt ++ "\"")
        | none => some ("\"" ++ excerpt ++ "\"")
      | none => baseDescription
    some
      { id := imdbId
        name := entry.film.name
        poster :=
          if showRatings then buildPosterUrl (getLogEntryPosterUrl entry.film) entry.rating
          else getLogEntryPosterUrl entry.film
        year := entry.film.releaseYear
        genres := entry.film.genres.map (fun gs => gs.map (fun g => g.name))
        director := entry.film.directors.map (fun ds => ds.map (fun d => d.name))
        description := description }

/-- The loop body of `transformLogEntriesToMetas`: `seen` models the
`seenIds` set (`Set<string>`). -/
def transformLogEntriesGo (showRatings : Bool) (seen : List String) :
    List LogEntry → List StremioMeta
  | [] => []
  | entry :: rest =>
    match transformLogEntryToMeta entry showRatings with
    | some meta =>
      if meta.id ∈ seen then transformLogEntriesGo showRatings seen rest
      else meta :: transformLogEntriesGo showRatings (meta.id :: seen) rest
    | none => transformLogEntriesGo showRatings seen rest

/-- `transformLogEntriesToMetas`: batch transform of diary entries,
deduplicating by IMDb id, keeping the first occurrence. -/
def transformLogEntriesToMetas (entries : List LogEntry) (showRatings : Bool) : List StremioMeta :=
  transformLogEntriesGo showRatings [] entries

/-- `transformListEntryToMeta`: one list entry to one catalog item; the
description is the rank (`#42`) when present (`entry.rank != null`, an
explicit null check, so rank 0 renders as `"#0"`). -/
def transformListEntryToMeta (entry : ListEntry) (showRatings : Bool) : Option StremioMeta :=
  match getImdbId entry.film with
  | none => none
  | some imdbId =>
    some
      { id := imdbId
        name := entry.film.name
        poster :=
          if showRatings then buildPosterUrl (getPosterUrl entry.film) entry.film.rating
          else getPosterUrl entry.film
        year := entry.film.releaseYear
        genres := entry.film.genres.map (fun gs => gs.map (fun g => g.name))
        director := entry.film.directors.map (fun ds => ds.map (fun d => d.name))
        runtime := match entry.film.runTime with
          | some n => if n ≠ 0 then some (toString n ++ " min") else none
          | none => none
        description := entry.rank.map (fun r => "#" ++ toString r) }

/-- `transformListEntriesToMetas`: the accumulation loop over a batch of
list entries.  Like the watchlist batch transform, the source pushes
every non-null per-item transform without deduplication. -/
def transformListEntriesToMetas (entries : List ListEntry) (showRatings : Bool) : List StremioMeta :=
  match entries with
  | [] => []
  | entry :: rest =>
    match transformListEntryToMeta entry showRatings with
    | some meta => meta :: transformListEntriesToMetas rest showRatings
    | none => transformListEntriesToMetas rest showRatings

/-- `getActivityFilm`: the film of an activity item, which sits either
directly on the item or inside its diary entry. -/
def getActivityFilm (item : ActivityItem) : Option WatchlistFilm :=
  match item.film with
  | some f => some f
  | none =>
    match item.diaryEntry with
    | some de => de.film
    | none => none

/-- Models `item.member.displayName || item.member.username` (the empty
string is falsy in JS). -/
def activityMemberName (m : ActivityMember) : String :=
  match m.displayName with
  | some d => if d ≠ "" then d else m.username
  | none => m.username

/-- Star glyphs as built inline in `transformActivityItemToMeta`
(`'★'.repeat(floor r)` plus `'½'` when the fraction is ≥ 0.5). -/
def activityStars (r : ℚ) : String :=
  jsRepeatChar '★' (⌊r⌋).toNat ++ (if r - ⌊r⌋ ≥ 1 / 2 then "½" else "")

/-- `transformActivityItemToMeta`: one activity-feed item to one catalog
item with an activity sentence, or `none` when there is no film or no
IMDb id. -/
def transformActivityItemToMeta (item : ActivityItem) (showRatings : Bool) : Option StremioMeta :=
  match getActivityFilm item with
  | none => none
  | some film =>
    match getImdbId film with
    | none => none
    | some imdbId =>
      let memberName := activityMemberName item.member
      let ratingTruthy : Bool :=
        match item.rating with
        | some r => r ≠ 0
        | none => false
      let description : String :=
        if item.atype = "FilmRatingActivity" ∧ ratingTruthy then
          match item.rating with
          | some r => "Rated " ++ activityStars r ++ " by " ++ memberName
          | none => "Activity by " ++ memberName
        else if item.atype = "WatchlistActivity" then
          "Added to watchlist by " ++ memberName
        else if item.atype = "DiaryEntryActivity" then
          let diary := item.diaryEntry
          let parts : List String :=
            (match diary with
              | some de => (if de.like then ["Liked"] else []) ++
                  (match de.rating with
                    | some r => if r ≠ 0 then ["Rated " ++ activityStars r] else []
                    | none => [])
              | none => []) ++
            ["by " ++ memberName] ++
            (match diary with
              | some de =>
                match de.diaryDetails with
                | some dd =>
                  match dd.diaryDate with
                  | some d => if d ≠ "" then ["on " ++ d] else []
                  | none => []
                | none => []
              | none => [])
          let base := String.intercalate " " parts
          match diary with
          | some de =>
            match de.review with
            | some review =>
              if review.lbml ≠ "" ∧ ¬ review.containsSpoilers then
                base ++ "\n\"" ++ review.lbml ++ "\""
              else base
            | none => base
          | none => base
        else
          "Activity by " ++ memberName
      let activityRating : Option ℚ :=
        match item.rating with
        | some r => some r
        | none =>
          match item.diaryEntry with
          | some de => de.rating
          | none => none
      let _ := activityRating
      some
        { id := imdbId
          name := film.name
          poster :=
            if showRatings then buildPosterUrl (getPosterUrl film) film.rating
            else getPosterUrl film
          year := film.releaseYear
          genres := film.genres.map (fun gs => gs.map (fun g => g.name))
          director := film.directors.map (fun ds => ds.map (fun d => d.name))
          description := some description }

/-- The loop body of `transformActivityToMetas`: skips the viewing
subject's own activity, then deduplicates by IMDb id. -/
def transformActivityGo (excludeMemberId : String) (showRatings : Bool) (seen : List String) :
    List ActivityItem → List StremioMeta
  | [] => []
  | item :: rest =>
    if item.member.id = excludeMemberId then
      transformActivityGo excludeMemberId showRatings seen rest
    else
      match transformActivityItemToMeta item showRatings with
      | some meta =>
        if meta.id ∈ seen then transformActivityGo excludeMemberId showRatings seen rest
        else meta :: transformActivityGo excludeMemberId showRatings (meta.id :: seen) rest
      | none => transformActivityGo excludeMemberId showRatings seen rest

/-- `transformActivityToMetas`: batch transform of the friends activity
feed — excludes the subject's own activity and deduplicates by IMDb id,
keeping the first occurrence. -/
def transformActivityToMetas (items : List ActivityItem) (excludeMemberId : String)
    (showRatings : Bool) : List StremioMeta :=
  transformActivityGo excludeMemberId showRatings [] items

/-! ## Sort labels (stremio.service.ts `SORT_LABEL_TO_API`) -/

/-- The closed set of upstream API sort enum values — the range of
`SORT_LABEL_TO_API` in stremio.service.ts. -/
inductive LbSort
  | dateLatestFirst
  | dateEarliestFirst
  | filmName
  | releaseDateLatestFirst
  | releaseDateEarliestFirst
  | authenticatedMemberRatingHighToLow
  | authenticatedMemberRatingLowToHigh
  | averageRatingHighToLow
  | averageRatingLowToHigh
  | filmPopularity
  | filmPopularityThisWeek
  | filmPopularityThisMonth
  | filmDurationShortestFirst
  | filmDurationLongestFirst
  deriving DecidableEq, Fintype, Repr

/-- The upstream API name of each sort value (the strings on the right of
`SORT_LABEL_TO_API`). -/
def apiSortName : LbSort → String
  | .dateLatestFirst => "DateLatestFirst"
  | .dateEarliestFirst => "DateEarliestFirst"
  | .filmName => "FilmName"
  | .releaseDateLatestFirst => "ReleaseDateLatestFirst"
  | .releaseDateEarliestFirst => "ReleaseDateEarliestFirst"
  | .authenticatedMemberRatingHighToLow => "AuthenticatedMemberRatingHighToLow"
  | .authenticatedMemberRatingLowToHigh => "AuthenticatedMemberRatingLowToHigh"
  | .averageRatingHighToLow => "AverageRatingHighToLow"
  | .averageRatingLowToHigh => "AverageRatingLowToHigh"
  | .filmPopularity => "FilmPopularity"
  | .filmPopularityThisWeek => "FilmPopularityThisWeek"
  | .filmPopularityThisMonth => "FilmPopularityThisMonth"
  | .filmDurationShortestFirst => "FilmDurationShortestFirst"
  | .filmDurationLongestFirst => "FilmDurationLongestFirst"

/-- `SORT_LABEL_TO_API`: human-readable sort label to upstream API sort
value; `none` for labels outside the table (`undefined` lookup). -/
def sortLabelToApi : String → Option LbSort
  | "Recently Added" => some .dateLatestFirst
  | "Oldest Added" => some .dateEarliestFirst
  | "Film Name" => some .filmName
  | "Release Date (Newest)" => some .releaseDateLatestFirst
  | "Release Date (Oldest)" => some .releaseDateEarliestFirst
  | "Your Rating (High)" => some .authenticatedMemberRatingHighToLow
  | "Your Rating (Low)" => some .authenticatedMemberRatingLowToHigh
  | "Average Rating (High)" => some .averageRatingHighToLow
  | "Average Rating (Low)" => some .averageRatingLowToHigh
  | "Popularity" => some .filmPopularity
  | "Popularity (Week)" => some .filmPopularityThisWeek
  | "Popularity (Month)" => some .filmPopularityThisMonth
  | "Shortest" => some .filmDurationShortestFirst
  | "Longest" => some .filmDurationLongestFirst
  | _ => none

/-- Models the template fragment `${sort || 'default'}` of the cache
keys: the API name of the sort when one was selected, else
`"default"`. -/
def sortParam : Option LbSort → String
  | some s => apiSortName s
  | none => "default"

/-! ## Extra-parameter parsing (stremio.routes.ts) -/

/-- `parseExtra`: split `"skip=20&genre=Action"` into key/value pairs.
`part.split('=')` destructures only the first two segments; a pair is
kept when the key is non-empty and a value segment exists. -/
def parseExtra (extra : Option String) : List (String × String) :=
  match extra with
  | none => []
  | some s =>
    (jsSplitChar s '&').filterMap (fun part =>
      match jsSplitChar part '=' with
      | key :: value :: _ => if key ≠ "" then some (key, decodeURIComponent value) else none
      | _ => none)

/-- Lookup in the params object built by `parseExtra`; later assignments
to the same key overwrite earlier ones. -/
def paramsGet (params : List (String × String)) (key : String) : Option String :=
  (params.reverse.find? (fun p => p.1 == key)).map (fun p => p.2)

/-- The result record of `parseSortAndSkip`.  `skip = none` models `NaN`
from `parseInt`. -/
structure SortAndSkip where
  skip : Option Int
  sort : Option LbSort
  isShuffle : Bool
  deriving Repr

/-- `parseSortAndSkip`: skip offset, mapped sort and the special
`"Shuffle"` selector from the extra string.  When the label is
`"Shuffle"`, `sort` is left `undefined`, so the underlying fetch (and its
cache key) is the default-sort one. -/
def parseSortAndSkip (extra : Option String) : SortAndSkip :=
  let params := parseExtra extra
  let skip : Option Int :=
    match paramsGet params "skip" with
    | some s => if s = "" then some 0 else jsParseInt s
    | none => some 0
  let sortLabel := paramsGet params "genre"
  let isShuffle := sortLabel == some "Shuffle"
  let sort : Option LbSort :=
    match sortLabel with
    | some label => if isShuffle then none else sortLabelToApi label
    | none => none
  ⟨skip, sort, isShuffle⟩

/-! ## Fisher–Yates shuffle (stremio.routes.ts `shuffleArray`) -/

/-- Swap the elements at positions `i` and `k` of a list (the effect of
`[result[i], result[j]] = [result[j], result[i]]`). -/
def listSwap {α : Type} (l : List α) (i k : Nat) : List α :=
  match l.get? i, l.get? k with
  | some x, some y => (l.set i y).set k x
  | _, _ => l

/-- The loop of `shuffleArray`: `i` runs from `length - 1` down to `1`;
at step `i` the element is swapped with position `rand i % (i + 1)`,
which models `Math.floor(Math.random() * (i + 1))` — an arbitrary index
in `[0, i]` drawn from the random source `rand`. -/
def shuffleGo {α : Type} (rand : Nat → Nat) : List α → Nat → List α
  | l, 0 => l
  | l, Nat.succ i => shuffleGo rand (listSwap l (i + 1) (rand (i + 1) % (i + 2))) i

/-- `shuffleArray`: non-mutating Fisher–Yates shuffle.  The source copies
the input (`[...arr]`) and permutes the copy; the randomness is supplied
by `rand`. -/
def shuffleArray {α : Type} (arr : List α) (rand : Nat → Nat) : List α :=
  shuffleGo rand arr (arr.length - 1)

/-! ## TTL-cache model and collection cache keys

The lru-cache package is an external collaborator; a cache instance is
modelled as an association list from string keys to stored collections
(the claims below are all conditioned on windows with no TTL expiry and
no capacity eviction, where the package behaves as a plain map). -/

/-- One cache instance holding whole catalog collections. -/
def CacheState : Type := List (String × List StremioMeta)

/-- `cache.get(key)`. -/
def cacheGet (st : CacheState) (key : String) : Option (List StremioMeta) :=
  (st.find? (fun e => e.1 == key)).map (fun e => e.2)

/-- `cache.set(key, value)`: replace any previous entry for the key. -/
def cacheSet (st : CacheState) (key : String) (value : List StremioMeta) : CacheState :=
  (key, value) :: st.filter (fun e => ¬ e.1 == key)

/-- `CATALOG_PAGE_SIZE`: the fixed Stremio page size. -/
def CATALOG_PAGE_SIZE : Nat := 100

/-- Character-list prefix test used by `strPrefixOf`. -/
def charsLeading : List Char → List Char → Bool
  | [], _ => true
  | _, [] => false
  | a :: as, b :: bs => a == b && charsLeading as bs

/-- Boolean prefix test on strings, used to model the `user:{userId}:*`
key-prefix matching of the invalidation spec. -/
def strPrefixOf (p s : String) : Bool :=
  charsLeading p.data s.data

/-- Modelled from the spec: `getUserCatalogCached(cacheKey, skip,
pageSize)` of lib/cache.ts.  The current lib/cache.ts (with the per-user
catalog collection cache) is not among the provided sources — only the
importing call site in stremio.routes.ts is — so this follows §4.4:
on a hit return the page slice `items.slice(skip, skip + pageSize)` of
the stored whole collection, on a miss return nothing. -/
def getUserCatalogCached (st : CacheState) (cacheKey : String) (skip pageSize : Nat) :
    Option (List StremioMeta) :=
  (cacheGet st cacheKey).map (fun items => jsSlice items skip (skip + pageSize))

/-- Modelled from the spec: `setUserCatalog(userId, cacheKey, allMetas,
skip, pageSize)` of lib/cache.ts (not among the provided sources): store
the whole transformed collection under the cache key and return the
requested page slice, as §4.4 step 3 describes. -/
def setUserCatalog (st : CacheState) (cacheKey : String) (allMetas : List StremioMeta)
    (skip pageSize : Nat) : List StremioMeta × CacheState :=
  (jsSlice allMetas skip (skip + pageSize), cacheSet st cacheKey allMetas)

/-- Modelled from the spec: `invalidateUserCatalogs(userId)` of
lib/cache.ts (not among the provided sources): remove every cached
collection whose key matches the prefix `user:{userId}:` (§4.5,
"implemented by key-prefix match, not enumeration of known kinds"). -/
def invalidateUserCatalogs (st : CacheState) (userId : String) : CacheState :=
  st.filter (fun e => !(strPrefixOf ("user:" ++ userId ++ ":") e.1))

/-! ## Paginated fetch loop

Each fetcher in stremio.routes.ts runs the same inline do-while loop:
`do { page++; resp := await fetchPage(cursor); acc.push(...resp.items);
cursor := next(resp) } while (cursor && page < cap)`.  The upstream
client is an oracle mapping a cursor to a page.  `fuel` is the number of
pages the loop may still fetch (`cap - page`); the loop body runs
exactly when `fuel > 0`. -/

/-- One upstream page of items together with its next-page cursor. -/
structure UpstreamPage (Item : Type) where
  items : List Item
  cursor : Option String

/-- The accumulated items of the paginated do-while loop with `fuel`
pages remaining, starting from `cursor`. -/
def fetchAllPages {Item : Type} (up : Option String → UpstreamPage Item) :
    Nat → Option String → List Item
  | 0, _ => []
  | Nat.succ fuel, cursor =>
    let resp := up cursor
    resp.items ++
      (match resp.cursor with
       | none => []
       | some c => fetchAllPages up fuel (some c))

/-- The number of upstream pages the loop actually requests. -/
def fetchPageCount {Item : Type} (up : Option String → UpstreamPage Item) :
    Nat → Option String → Nat
  | 0, _ => 0
  | Nat.succ fuel, cursor =>
    1 + (match (up cursor).cursor with
         | none => 0
         | some c => fetchPageCount up fuel (some c))

/-! ## Per-user catalog fetchers (stremio.routes.ts)

Each fetcher takes the collection-cache state, the request parameters and
the upstream page oracle, and returns the page of metas together with
the new cache state.  `trackEvent`, logging and the `cacheFilmMapping`
side effect (a different cache instance) are omitted. -/

/-- The cache key of `fetchWatchlistCatalog`:
`user:\x7bid\x7d:watchlist:\x7bshowRatings\x7d:\x7bsort || 'default'\x7d`. -/
def watchlistCacheKey (userId : String) (showRatings : Bool) (sort : Option LbSort) : String :=
  "user:" ++ userId ++ ":watchlist:" ++ jsBoolString showRatings ++ ":" ++ sortParam sort

/-- The cache key of `fetchDiaryCatalog`. -/
def diaryCacheKey (userId : String) (showRatings : Bool) (sort : Option LbSort) : String :=
  "user:" ++ userId ++ ":diary:" ++ jsBoolString showRatings ++ ":" ++ sortParam sort

/-- The cache key of `fetchFriendsCatalog` (no sort dimension). -/
def friendsCacheKey (userId : String) (showRatings : Bool) : String :=
  "user:" ++ userId ++ ":friends:" ++ jsBoolString showRatings

/-- The cache key of `fetchListCatalog`. -/
def listCacheKey (userId listId : String) (showRatings : Bool) (sort : Option LbSort) : String :=
  "user:" ++ userId ++ ":list:" ++ listId ++ ":" ++ jsBoolString showRatings ++ ":" ++ sortParam sort

/-- The cache key of `fetchLikedFilmsCatalog`. -/
def likedCacheKey (userId : String) (showRatings : Bool) (sort : Option LbSort) : String :=
  "user:" ++ userId ++ ":liked:" ++ jsBoolString showRatings ++ ":" ++ sortParam sort

/-- `fetchWatchlistCatalog`: serve the page from the per-user collection
cache, or fetch up to 10 upstream pages, transform, store the whole
collection and return the page. -/
def fetchWatchlistCatalog (st : CacheState) (userId : String) (skip : Nat)
    (showRatings : Bool) (sort : Option LbSort)
    (up : Option String → UpstreamPage WatchlistFilm) : List StremioMeta × CacheState :=
  let cacheKey := watchlistCacheKey userId showRatings sort
  match getUserCatalogCached st cacheKey skip CATALOG_PAGE_SIZE with
  | some metas => (metas, st)
  | none =>
    let allFilms := fetchAllPages up 10 none
    let allMetas := transformWatchlistToMetas allFilms showRatings
    setUserCatalog st cacheKey allMetas skip CATALOG_PAGE_SIZE

/-- `fetchDiaryCatalog`: as `fetchWatchlistCatalog` with the diary key, a
page cap of 5 and the log-entry transformer. -/
def fetchDiaryCatalog (st : CacheState) (userId : String) (skip : Nat)
    (showRatings : Bool) (sort : Option LbSort)
    (up : Option String → UpstreamPage LogEntry) : List StremioMeta × CacheState :=
  let cacheKey := diaryCacheKey userId showRatings sort
  match getUserCatalogCached st cacheKey skip CATALOG_PAGE_SIZE with
  | some metas => (metas, st)
  | none =>
    let allEntries := fetchAllPages up 5 none
    let allMetas := transformLogEntriesToMetas allEntries showRatings
    setUserCatalog st cacheKey allMetas skip CATALOG_PAGE_SIZE

/-- Character-list body of `jsReplaceFirst`: replace the first occurrence
of `pat`, leave the input unchanged when it never occurs. -/
def replaceFirstChars (pat rep : List Char) : List Char → List Char
  | [] => []
  | c :: rest =>
    if charsLeading pat (c :: rest) then rep ++ (c :: rest).drop pat.length
    else c :: replaceFirstChars pat rep rest

/-- The friends-activity feed advances by
`nextStart = response.next?.replace('start=', '')`, and the do-while
continues only on a truthy (non-empty) `nextStart`.  `jsReplaceFirst`
models `String.prototype.replace` with a plain-string pattern (first
occurrence only). -/
def jsReplaceFirst (s pat rep : String) : String :=
  String.mk (replaceFirstChars pat.data rep.data s.data)

/-- The next-cursor extraction of the friends loop. -/
def friendsNextCursor (next : Option String) : Option String :=
  match next with
  | none => none
  | some s =>
    let t := jsReplaceFirst s "start=" ""
    if t = "" then none else some t

/-- An upstream friends-activity page (`{ items, next }`). -/
structure FriendsPage where
  items : List ActivityItem
  next : Option String

/-- View of a friends page as a generic cursor page, so the common
do-while loop model applies. -/
def friendsPageView (up : Option String → FriendsPage) :
    Option String → UpstreamPage ActivityItem :=
  fun cursor =>
    let resp := up cursor
    ⟨resp.items, friendsNextCursor resp.next⟩

/-- `fetchFriendsCatalog`: page cap 3, activity transformer excluding the
subject's own activity (`user.letterboxd_id`). -/
def fetchFriendsCatalog (st : CacheState) (userId letterboxdId : String) (skip : Nat)
    (showRatings : Bool) (up : Option String → FriendsPage) : List StremioMeta × CacheState :=
  let cacheKey := friendsCacheKey userId showRatings
  match getUserCatalogCached st cacheKey skip CATALOG_PAGE_SIZE with
  | some metas => (metas, st)
  | none =>
    let allItems := fetchAllPages (friendsPageView up) 3 none
    let allMetas := transformActivityToMetas allItems letterboxdId showRatings
    setUserCatalog st cacheKey allMetas skip CATALOG_PAGE_SIZE

/-- `fetchListCatalog`: page cap 10, list-entry transformer. -/
def fetchListCatalog (st : CacheState) (userId listId : String) (skip : Nat)
    (showRatings : Bool) (sort : Option LbSort)
    (up : Option String → UpstreamPage ListEntry) : List StremioMeta × CacheState :=
  let cacheKey := listCacheKey userId listId showRatings sort
  match getUserCatalogCached st cacheKey skip CATALOG_PAGE_SIZE with
  | some metas => (metas, st)
  | none =>
    let allEntries := fetchAllPages up 10 none
    let allMetas := transformListEntriesToMetas allEntries showRatings
    setUserCatalog st cacheKey allMetas skip CATALOG_PAGE_SIZE

/-- `fetchLikedFilmsCatalog`: page cap 10, watchlist transformer; the
upstream call uses `sort || 'DateLatestFirst'` but the cache key uses
`sort || 'default'`. -/
def fetchLikedFilmsCatalog (st : CacheState) (userId : String) (skip : Nat)
    (showRatings : Bool) (sort : Option LbSort)
    (up : Option String → UpstreamPage WatchlistFilm) : List StremioMeta × CacheState :=
  let cacheKey := likedCacheKey userId showRatings sort
  match getUserCatalogCached st cacheKey skip CATALOG_PAGE_SIZE with
  | some metas => (metas, st)
  | none =>
    let allFilms := fetchAllPages up 10 none
    let allMetas := transformWatchlistToMetas allFilms showRatings
    setUserCatalog st cacheKey allMetas skip CATALOG_PAGE_SIZE

/-! ## Public catalog fetchers (service-account tier)

These use dedicated cache instances (popularCatalogCache,
publicWatchlistCache, …) and slice inline:
`cached.metas.slice(skip, skip + CATALOG_PAGE_SIZE)`. -/

/-- The cache key of `fetchPopularCatalogPublic`:
`popular:\x7bshowRatings\x7d:\x7beffectiveSort\x7d` with
`effectiveSort = sort || 'FilmPopularityThisWeek'`. -/
def popularCacheKey (showRatings : Bool) (sort : Option LbSort) : String :=
  "popular:" ++ jsBoolString showRatings ++ ":" ++
    apiSortName (sort.getD .filmPopularityThisWeek)

/-- `fetchPopularCatalogPublic`: whole-collection cache with inline page
slicing; on a miss fetch up to 10 pages with the app token, transform and
store the whole collection. -/
def fetchPopularCatalogPublic (st : CacheState) (skip : Nat) (showRatings : Bool)
    (sort : Option LbSort) (up : Option String → UpstreamPage WatchlistFilm) :
    List StremioMeta × CacheState :=
  let effectiveSort := sort.getD .filmPopularityThisWeek
  let cacheKey := popularCacheKey showRatings sort
  match cacheGet st cacheKey with
  | some cached => (jsSlice cached skip (skip + CATALOG_PAGE_SIZE), st)
  | none =>
    let _ := effectiveSort
    let allFilms := fetchAllPages up 10 none
    let allMetas := transformWatchlistToMetas allFilms showRatings
    (jsSlice allMetas skip (skip + CATALOG_PAGE_SIZE), cacheSet st cacheKey allMetas)

/-- The cache key of `fetchWatchlistCatalogPublic`:
`watchlist:\x7bmemberId\x7d:\x7bshowRatings\x7d:\x7bsort || 'default'\x7d`. -/
def publicWatchlistCacheKey (memberId : String) (showRatings : Bool)
    (sort : Option LbSort) : String :=
  "watchlist:" ++ memberId ++ ":" ++ jsBoolString showRatings ++ ":" ++ sortParam sort

/-- `fetchWatchlistCatalogPublic`: public watchlist by member id, page
cap 10, inline page slicing. -/
def fetchWatchlistCatalogPublic (st : CacheState) (memberId : String) (skip : Nat)
    (showRatings : Bool) (sort : Option LbSort)
    (up : Option String → UpstreamPage WatchlistFilm) : List StremioMeta × CacheState :=
  let cacheKey := publicWatchlistCacheKey memberId showRatings sort
  match cacheGet st cacheKey with
  | some cached => (jsSlice cached skip (skip + CATALOG_PAGE_SIZE), st)
  | none =>
    let allFilms := fetchAllPages up 10 none
    let allMetas := transformWatchlistToMetas allFilms showRatings
    (jsSlice allMetas skip (skip + CATALOG_PAGE_SIZE), cacheSet st cacheKey allMetas)

/-! ## Catalog request handler (stremio.routes.ts `handleCatalogRequest`)

The handler's control flow around the fetch pipeline: non-movie types
and unknown catalog ids return `{ metas: [] }` directly; the selected
pipeline runs inside a try/catch whose catch branch also returns
`{ metas: [] }`; the `Shuffle` selector reshuffles the returned page on
every call.  The selected pipeline (one of the fetchers above, which may
throw on upstream failure) is abstracted as an `Except` outcome carrying
the page and the new cache state. -/

/-- Whether `handleCatalogRequest`'s if/else chain recognises the catalog
id (anything else falls to the warn-and-return-empty branch). -/
def knownCatalogId (cid : String) : Bool :=
  cid == "letterboxd-watchlist" || cid == "letterboxd-diary" ||
  cid == "letterboxd-friends" || cid == "letterboxd-liked-films" ||
  cid == "letterboxd-popular" || cid == "letterboxd-top250" ||
  strPrefixOf "letterboxd-watchlist-" cid || strPrefixOf "letterboxd-list-" cid

/-- `handleCatalogRequest` (control-flow skeleton): `attempt` is the
outcome of running the selected catalog pipeline (`Except.error` models a
thrown upstream/transform failure caught by the surrounding try/catch).
The cache state on the error path is not observable to the response;
only the returned metas are modelled here. -/
def handleCatalogRequest (mediaType catalogId : String) (extra : Option String)
    (rand : Nat → Nat) (attempt : Except String (List StremioMeta)) : List StremioMeta :=
  if mediaType ≠ "movie" then []
  else if ¬ knownCatalogId catalogId then []
  else
    match attempt with
    | .error _ => []
    | .ok metas =>
      if (parseSortAndSkip extra).isShuffle then shuffleArray metas rand else metas

/-- The watchlist branch of `handleCatalogRequest` together with the
post-fetch shuffle step, keeping the cache state observable: the branch
runs `fetchWatchlistCatalog` with the parsed sort, then reshuffles the
returned page when the `Shuffle` selector was chosen.  The stored cache
state is whatever the fetch produced — the shuffled order is never
written back. -/
def handleWatchlistBranch (st : CacheState) (userId : String) (skip : Nat)
    (showRatings : Bool) (sort : Option LbSort) (isShuffle : Bool) (rand : Nat → Nat)
    (up : Option String → UpstreamPage WatchlistFilm) : List StremioMeta × CacheState :=
  let fetched := fetchWatchlistCatalog st userId skip showRatings sort up
  ((if isShuffle then shuffleArray fetched.1 rand else fetched.1), fetched.2)

/-! ## Mutation route handlers (invalidation call sites)

The action route (`/action/:userId/:action/:filmId`) and the rating
submit route both run the upstream write, then — only on success —
synchronously call `invalidateUserCatalogs(userId)` before building the
HTTP response.  The upstream write outcome is an `Except`. -/

/-- The film-relationship state returned by a successful upstream
update. -/
structure FilmRelationship where
  watched : Bool
  liked : Bool
  inWatchlist : Bool
  deriving Repr

/-- The cache effect of the action / rating-submit route handlers: on a
successful upstream write the user's catalog caches are invalidated
before the response is sent; on a thrown write the catch branch responds
with an error page and the cache is left untouched. -/
def actionRouteCacheEffect (st : CacheState) (userId : String)
    (updateResult : Except String FilmRelationship) : Bool × CacheState :=
  match updateResult with
  | .ok _ => (true, invalidateUserCatalogs st userId)
  | .error _ => (false, st)

/-! ## Authenticated client cache (stremio.routes.ts `createClientForUser`)

`userClientCache` is keyed by internal user id; the model tracks the
entry of the one user under consideration.  `refreshAccessToken` is the
upstream OAuth collaborator, modelled as the token response it returns.
The stored user record's refresh token is `getDecryptedRefreshToken`'s
result (decryption is external plumbing). -/

/-- The token endpoint response (`refreshAccessToken`). -/
structure TokenResponse where
  access_token : String
  refresh_token : String
  expires_in : Nat
  deriving DecidableEq, Repr

/-- The authenticated client handle built by
`createAuthenticatedClient(accessToken, refreshToken, letterboxdId, …)`. -/
structure AuthenticatedClient where
  accessToken : String
  refreshToken : String
  letterboxdId : String
  deriving DecidableEq, Repr

/-- One `userClientCache` entry: the client and its expiry timestamp in
milliseconds. -/
structure ClientCacheEntry where
  client : AuthenticatedClient
  expiresAt : Int
  deriving DecidableEq, Repr

/-- The state `createClientForUser` reads and writes for one user: the
session-cache entry, and the user record's stored refresh credential and
its expiry. -/
structure SessionState where
  cachedClient : Option ClientCacheEntry
  storedRefreshToken : String
  storedTokenExpiresAt : Option Int
  deriving DecidableEq, Repr

/-- The refresh path of `createClientForUser` (everything after the
cache check): call the token endpoint, persist the rotated refresh token
to the user record when it changed (`updateUser`), build the client and
replace the session-cache entry with the new expiry. -/
def createClientRefreshPath (st : SessionState) (letterboxdId : String) (now : Int)
    (tokens : TokenResponse) : AuthenticatedClient × SessionState :=
  let expiresAt : Int := now + tokens.expires_in * 1000
  let client : AuthenticatedClient :=
    ⟨tokens.access_token, tokens.refresh_token, letterboxdId⟩
  let stored :=
    if tokens.refresh_token ≠ st.storedRefreshToken then
      (tokens.refresh_token, some expiresAt)
    else (st.storedRefreshToken, st.storedTokenExpiresAt)
  (client, ⟨some ⟨client, expiresAt⟩, stored.1, stored.2⟩)

/-- `createClientForUser`: return the cached client when its expiry is
more than the 60 s margin in the future; otherwise refresh, persist the
rotated refresh token to the user record when it changed, build the new
client, replace the cache entry, and return the new client.  `now` is
`Date.now()`; `tokens` is the response of `refreshAccessToken`. -/
def createClientForUser (st : SessionState) (letterboxdId : String) (now : Int)
    (tokens : TokenResponse) : AuthenticatedClient × SessionState :=
  match st.cachedClient with
  | some cached =>
    if cached.expiresAt > now + 60000 then (cached.client, st)
    else createClientRefreshPath st letterboxdId now tokens
  | none => createClientRefreshPath st letterboxdId now tokens

/-! ## Helper lemmas: swaps and shuffles are permutations -/

/-- Writing `a` at a position holding `y` and moving `y` to the front is
a permutation of putting `a` at the front. -/
theorem set_cons_perm {α : Type} (t : List α) (m : Nat) (a y : α)
    (h : t.get? m = some y) : List.Perm (y :: t.set m a) (a :: t) := by
  induction t generalizing m with
  | nil => simp at h
  | cons b t' ih =>
    cases m with
    | zero =>
      simp only [List.get?_cons_zero, Option.some.injEq] at h
      subst h
      simp only [List.set_cons_zero]
      exact List.Perm.swap a b t'
    | succ m' =>
      simp only [List.get?_cons_succ] at h
      have step : List.Perm (y :: b :: t'.set m' a) (b :: y :: t'.set m' a) :=
        List.Perm.swap b y (t'.set m' a)
      have mid : List.Perm (b :: y :: t'.set m' a) (b :: a :: t') :=
        List.Perm.cons b (ih m' h)
      have fin : List.Perm (b :: a :: t') (a :: b :: t') := List.Perm.swap a b t'
      simpa using (step.trans mid).trans fin

/-- `listSwap` produces a permutation of its input. -/
theorem listSwap_perm {α : Type} (l : List α) (i k : Nat) :
    List.Perm (listSwap l i k) l := by
  induction l generalizing i k with
  | nil => simp [listSwap]
  | cons a t ih =>
    cases i with
    | zero =>
      cases k with
      | zero => simp [listSwap]
      | succ m =>
        unfold listSwap
        simp only [List.get?_cons_zero, List.get?_cons_succ]
        cases h : t.get? m with
        | none => exact List.Perm.refl _
        | some y =>
          simp only [List.set_cons_zero, List.set_cons_succ]
          exact set_cons_perm t m a y h
    | succ n =>
      cases k with
      | zero =>
        unfold listSwap
        simp only [List.get?_cons_zero, List.get?_cons_succ]
        cases h : t.get? n with
        | none => exact List.Perm.refl _
        | some x =>
          simp only [List.set_cons_succ, List.set_cons_zero]
          exact set_cons_perm t n a x h
      | succ m =>
        unfold listSwap
        simp only [List.get?_cons_succ]
        cases h1 : t.get? n with
        | none => exact List.Perm.refl _
        | some x =>
          cases h2 : t.get? m with
          | none => exact List.Perm.refl _
          | some y =>
            simp only [List.set_cons_succ]
            have := ih n m
            unfold listSwap at this
            rw [h1, h2] at this
            exact List.Perm.cons a this

/-- Every pass of the Fisher–Yates loop preserves the multiset of
elements. -/
theorem shuffleGo_perm {α : Type} (rand : Nat → Nat) (l : List α) (i : Nat) :
    List.Perm (shuffleGo rand l i) l := by
  induction i generalizing l with
  | zero => exact List.Perm.refl _
  | succ i ih =>
    exact (ih (listSwap l (i + 1) (rand (i + 1) % (i + 2)))).trans
      (listSwap_perm l (i + 1) (rand (i + 1) % (i + 2)))

/-- `shuffleArray` returns a permutation of its input. -/
theorem shuffleArray_perm {α : Type} (arr : List α) (rand : Nat → Nat) :
    List.Perm (shuffleArray arr rand) arr :=
  shuffleGo_perm rand arr (arr.length - 1)

/-- Claim C10: for every input array, `shuffleArray` returns a new array
that is a permutation of the input — same length and same multiset of
elements; the input list itself is untouched (the embedding is pure, and
the source shuffles a fresh copy `[...arr]` of its argument). -/
theorem c10_shuffleArray_is_permutation {α : Type} (arr : List α) (rand : Nat → Nat) :
    List.Perm (shuffleArray arr rand) arr ∧
      (shuffleArray arr rand).length = arr.length := by
  refine ⟨shuffleArray_perm arr rand, ?_⟩
  exact (shuffleArray_perm arr rand).length_eq

/-! ## Claim C1: deduplication across the batch transformers -/

/-- First-occurrence deduplication by `id` over an already-transformed
list of catalog items — the operation the spec asserts every batch
transformer performs; `seen` holds the ids already kept. -/
def dedupByIdGo (seen : List String) : List StremioMeta → List StremioMeta
  | [] => []
  | m :: rest =>
    if m.id ∈ seen then dedupByIdGo seen rest
    else m :: dedupByIdGo (m.id :: seen) rest

/-- First-occurrence deduplication by `id`. -/
def dedupById (l : List StremioMeta) : List StremioMeta :=
  dedupByIdGo [] l

/-- The log-entry batch loop is first-occurrence dedup composed with the
per-item transform. -/
theorem transformLogEntriesGo_eq_dedup (showRatings : Bool) (seen : List String)
    (entries : List LogEntry) :
    transformLogEntriesGo showRatings seen entries =
      dedupByIdGo seen (entries.filterMap (fun e => transformLogEntryToMeta e showRatings)) := by
  induction entries generalizing seen with
  | nil => rfl
  | cons e rest ih =>
    cases h : transformLogEntryToMeta e showRatings with
    | none => simp [transformLogEntriesGo, List.filterMap_cons, h, ih]
    | some m =>
      by_cases hm : m.id ∈ seen <;>
        simp [transformLogEntriesGo, List.filterMap_cons, h, hm, dedupByIdGo, ih]

/-- The activity batch loop is first-occurrence dedup composed with the
self-activity filter and the per-item transform. -/
theorem transformActivityGo_eq_dedup (excludeMemberId : String) (showRatings : Bool)
    (seen : List String) (items : List ActivityItem) :
    transformActivityGo excludeMemberId showRatings seen items =
      dedupByIdGo seen
        ((items.filter (fun i => !(i.member.id == excludeMemberId))).filterMap
          (fun i => transformActivityItemToMeta i showRatings)) := by
  induction items generalizing seen with
  | nil => rfl
  | cons i rest ih =>
    by_cases hex : i.member.id = excludeMemberId
    · simp [transformActivityGo, hex, List.filter_cons, ih]
    · cases h : transformActivityItemToMeta i showRatings with
      | none => simp [transformActivityGo, hex, List.filter_cons, List.filterMap_cons, h, ih]
      | some m =>
        by_cases hm : m.id ∈ seen <;>
          simp [transformActivityGo, hex, List.filter_cons, List.filterMap_cons, h, hm,
            dedupByIdGo, ih]

/-- Deduplicated output: the kept ids are distinct and avoid `seen`. -/
theorem dedupByIdGo_nodup (l : List StremioMeta) (seen : List String) :
    ((dedupByIdGo seen l).map (fun m => m.id)).Nodup ∧
      ∀ m ∈ dedupByIdGo seen l, m.id ∉ seen := by
  induction l generalizing seen with
  | nil => simp [dedupByIdGo]
  | cons m rest ih =>
    by_cases hm : m.id ∈ seen
    · simp only [dedupByIdGo, if_pos hm]
      exact ⟨(ih seen).1, (ih seen).2⟩
    · simp only [dedupByIdGo, if_neg hm, List.map_cons, List.nodup_cons]
      refine ⟨⟨?_, (ih (m.id :: seen)).1⟩, ?_⟩
      · intro hmem
        rcases List.mem_map.mp hmem with ⟨x, hx, hid⟩
        exact ((ih (m.id :: seen)).2 x hx) (hid ▸ List.mem_cons_self m.id seen)
      · intro x hx
        rcases List.mem_cons.mp hx with h | h
        · exact h ▸ hm
        · intro hseen
          exact ((ih (m.id :: seen)).2 x h) (List.mem_cons_of_mem _ hseen)

/-- Two distinct upstream watchlist films resolving to the same IMDb
id. -/
def c1FilmA : WatchlistFilm :=
  { id := "filmA", name := "Film A", links := [⟨"imdb", "tt0000001"⟩] }

/-- A second film carrying the same IMDb link as `c1FilmA`. -/
def c1FilmB : WatchlistFilm :=
  { id := "filmB", name := "Film B", links := [⟨"imdb", "tt0000001"⟩] }

/-- Claim C1, counterexample: the watchlist and list-entry batch
transformers do NOT deduplicate — a batch of two films sharing one IMDb
id transforms to two catalog items with the same `externalId`, so the
claimed invariant fails on `transformWatchlistToMetas` and
`transformListEntriesToMetas`. -/
theorem c1_no_dedup_counterexample :
    ((transformWatchlistToMetas [c1FilmA, c1FilmB] true).map (fun m => m.id)) =
        ["tt0000001", "tt0000001"] ∧
      ¬ ((transformWatchlistToMetas [c1FilmA, c1FilmB] true).map (fun m => m.id)).Nodup ∧
      ((transformListEntriesToMetas [⟨c1FilmA, none⟩, ⟨c1FilmB, none⟩] true).map
          (fun m => m.id)) = ["tt0000001", "tt0000001"] ∧
      ¬ ((transformListEntriesToMetas [⟨c1FilmA, none⟩, ⟨c1FilmB, none⟩] true).map
          (fun m => m.id)).Nodup := by
  refine ⟨rfl, by decide, rfl, by decide⟩

/-- Claim C1, amended: only the diary/log-entry and activity batch
transformers deduplicate by `externalId`; each equals first-occurrence
dedup (in upstream order) of its per-item transforms, and its output ids
are pairwise distinct.  The watchlist and list-entry batch transformers
keep every transformable record in upstream order without removing
duplicates (counterexample above). -/
theorem c1_dedup_amended (showRatings : Bool) (entries : List LogEntry)
    (items : List ActivityItem) (excludeMemberId : String) :
    transformLogEntriesToMetas entries showRatings =
        dedupById (entries.filterMap (fun e => transformLogEntryToMeta e showRatings)) ∧
      ((transformLogEntriesToMetas entries showRatings).map (fun m => m.id)).Nodup ∧
      transformActivityToMetas items excludeMemberId showRatings =
        dedupById
          ((items.filter (fun i => !(i.member.id == excludeMemberId))).filterMap
            (fun i => transformActivityItemToMeta i showRatings)) ∧
      ((transformActivityToMetas items excludeMemberId showRatings).map
          (fun m => m.id)).Nodup := by
  have h1 := transformLogEntriesGo_eq_dedup showRatings [] entries
  have h2 := transformActivityGo_eq_dedup excludeMemberId showRatings [] items
  refine ⟨h1, ?_, h2, ?_⟩
  · rw [transformLogEntriesToMetas, h1]
    exact (dedupByIdGo_nodup _ []).1
  · rw [transformActivityToMetas, h2]
    exact (dedupByIdGo_nodup _ []).1

/-! ## Claim C3: pagination -/

/-- The length of a page slice: `min(pageSize, length - skip)` (natural
subtraction makes `length - skip` the `max(0, ·)` of the claim). -/
theorem jsSlice_page_length {α : Type} (l : List α) (skip n : Nat) :
    (jsSlice l skip (skip + n)).length = min n (l.length - skip) := by
  simp [jsSlice]

/-- A slice past the end of the collection is the empty page. -/
theorem jsSlice_eq_nil_of_le {α : Type} (l : List α) (skip m : Nat)
    (h : l.length ≤ skip) : jsSlice l skip m = [] := by
  simp [jsSlice, List.drop_eq_nil_iff.mpr h]

/-- On a cache hit the public watchlist fetcher returns the page slice of
the cached collection and leaves the cache untouched. -/
theorem fetchWatchlistCatalogPublic_hit (st : CacheState) (memberId : String)
    (skip : Nat) (showRatings : Bool) (sort : Option LbSort)
    (up : Option String → UpstreamPage WatchlistFilm) (coll : List StremioMeta)
    (h : cacheGet st (publicWatchlistCacheKey memberId showRatings sort) = some coll) :
    fetchWatchlistCatalogPublic st memberId skip showRatings sort up =
      (jsSlice coll skip (skip + CATALOG_PAGE_SIZE), st) := by
  simp only [fetchWatchlistCatalogPublic, h]

/-- On a cache hit the public popular fetcher returns the page slice of
the cached collection and leaves the cache untouched. -/
theorem fetchPopularCatalogPublic_hit (st : CacheState) (skip : Nat)
    (showRatings : Bool) (sort : Option LbSort)
    (up : Option String → UpstreamPage WatchlistFilm) (coll : List StremioMeta)
    (h : cacheGet st (popularCacheKey showRatings sort) = some coll) :
    fetchPopularCatalogPublic st skip showRatings sort up =
      (jsSlice coll skip (skip + CATALOG_PAGE_SIZE), st) := by
  simp only [fetchPopularCatalogPublic, h]

/-- Claim C3: for a cached collection of length `L` and any `skip`, a
catalog page request returns exactly `min(CATALOG_PAGE_SIZE, L - skip)`
items (`items.slice(skip, skip + pageSize)`); a `skip` beyond the
collection yields the empty page, not an error; and repeated calls
against the same cache state return identical results — in particular
the upstream oracle is irrelevant on a hit. -/
theorem c3_pagination_determinism (st : CacheState) (memberId : String) (skip : Nat)
    (showRatings : Bool) (sort : Option LbSort)
    (up upTwo : Option String → UpstreamPage WatchlistFilm)
    (coll collPop : List StremioMeta)
    (hwl : cacheGet st (publicWatchlistCacheKey memberId showRatings sort) = some coll)
    (hpop : cacheGet st (popularCacheKey showRatings sort) = some collPop) :
    (fetchWatchlistCatalogPublic st memberId skip showRatings sort up).1.length =
        min CATALOG_PAGE_SIZE (coll.length - skip) ∧
      (coll.length ≤ skip →
        (fetchWatchlistCatalogPublic st memberId skip showRatings sort up).1 = []) ∧
      fetchWatchlistCatalogPublic st memberId skip showRatings sort up =
        fetchWatchlistCatalogPublic st memberId skip showRatings sort upTwo ∧
      (fetchPopularCatalogPublic st skip showRatings sort up).1.length =
        min CATALOG_PAGE_SIZE (collPop.length - skip) ∧
      (collPop.length ≤ skip →
        (fetchPopularCatalogPublic st skip showRatings sort up).1 = []) ∧
      fetchPopularCatalogPublic st skip showRatings sort up =
        fetchPopularCatalogPublic st skip showRatings sort upTwo := by
  rw [fetchWatchlistCatalogPublic_hit st memberId skip showRatings sort up coll hwl,
    fetchWatchlistCatalogPublic_hit st memberId skip showRatings sort upTwo coll hwl,
    fetchPopularCatalogPublic_hit st skip showRatings sort up collPop hpop,
    fetchPopularCatalogPublic_hit st skip showRatings sort upTwo collPop hpop]
  refine ⟨jsSlice_page_length coll skip CATALOG_PAGE_SIZE, ?_, rfl,
    jsSlice_page_length collPop skip CATALOG_PAGE_SIZE, ?_, rfl⟩
  · intro h; exact jsSlice_eq_nil_of_le coll skip _ h
  · intro h; exact jsSlice_eq_nil_of_le collPop skip _ h

/-- A two-item cached collection shared by both public caches. -/
def c3Coll : List StremioMeta :=
  [{ id := "tt0000010", name := "One" }, { id := "tt0000020", name := "Two" }]

/-- A cache state holding `c3Coll` under the public-watchlist and the
popular keys. -/
def c3St : CacheState :=
  [(publicWatchlistCacheKey "member1" true none, c3Coll),
   (popularCacheKey true none, c3Coll)]

/-- An upstream oracle that would return nothing (it is never consulted
on a hit). -/
def c3Up : Option String → UpstreamPage WatchlistFilm := fun _ => ⟨[], none⟩

/-- Witness for claim C3 at a concrete state: `skip = 3` beyond the
two-item collection yields empty pages. -/
theorem c3_pagination_determinism_witness :
    (fetchWatchlistCatalogPublic c3St "member1" 3 true none c3Up).1 = [] ∧
      (fetchPopularCatalogPublic c3St 3 true none c3Up).1 = [] := by
  have h := c3_pagination_determinism c3St "member1" 3 true none c3Up c3Up c3Coll c3Coll
    (by decide) (by decide)
  exact ⟨h.2.1 (by decide), h.2.2.2.2.1 (by decide)⟩

/-! ## Claim C6: page-cap safety of the fetch loop -/

/-- Bound on the accumulated items: at most `fuel` pages of at most `n`
items each. -/
theorem fetchAllPages_length_le {Item : Type} (up : Option String → UpstreamPage Item)
    (n : Nat) (h : ∀ c, (up c).items.length ≤ n) :
    ∀ (fuel : Nat) (cursor : Option String),
      (fetchAllPages up fuel cursor).length ≤ fuel * n := by
  intro fuel
  induction fuel with
  | zero => intro cursor; simp [fetchAllPages]
  | succ f ih =>
    intro cursor
    simp only [fetchAllPages, List.length_append]
    have h1 := h cursor
    have h2 : (match (up cursor).cursor with
        | none => ([] : List Item)
        | some c => fetchAllPages up f (some c)).length ≤ f * n := by
      cases (up cursor).cursor with
      | none => simp
      | some c => exact ih (some c)
    calc (up cursor).items.length +
          (match (up cursor).cursor with
            | none => ([] : List Item)
            | some c => fetchAllPages up f (some c)).length
        ≤ n + f * n := Nat.add_le_add h1 h2
      _ = (f + 1) * n := by ring

/-- The loop never requests more pages than its cap. -/
theorem fetchPageCount_le {Item : Type} (up : Option String → UpstreamPage Item) :
    ∀ (fuel : Nat) (cursor : Option String), fetchPageCount up fuel cursor ≤ fuel := by
  intro fuel
  induction fuel with
  | zero => intro cursor; simp [fetchPageCount]
  | succ f ih =>
    intro cursor
    simp only [fetchPageCount]
    cases hc : (up cursor).cursor with
    | none => simp
    | some c =>
      simp only []
      have := ih (some c)
      omega

/-- Against an upstream that always supplies a next cursor, the loop
requests exactly its cap of pages and stops. -/
theorem fetchPageCount_eq_cap {Item : Type} (up : Option String → UpstreamPage Item)
    (h : ∀ c, (up c).cursor ≠ none) :
    ∀ (fuel : Nat) (cursor : Option String), fetchPageCount up fuel cursor = fuel := by
  intro fuel
  induction fuel with
  | zero => intro cursor; rfl
  | succ f ih =>
    intro cursor
    simp only [fetchPageCount]
    cases hc : (up cursor).cursor with
    | none => exact absurd hc (h cursor)
    | some c =>
      simp only []
      rw [ih (some c)]
      omega

/-- Claim C6: a never-exhausting upstream makes the watchlist loop stop
at exactly its cap of 10 pages with at most 1000 accumulated items
(pages of ≤ 100 items), and makes the friends-activity loop stop at
exactly 3 pages; for any upstream whatsoever the friends loop requests at
most 3 pages.  The loop is a total function, so termination is by
construction — the partial result is returned, never an error. -/
theorem c6_page_cap_safety (up : Option String → UpstreamPage WatchlistFilm)
    (fr : Option String → FriendsPage)
    (hlen : ∀ c, (up c).items.length ≤ 100)
    (hcur : ∀ c, (up c).cursor ≠ none)
    (hfr : ∀ c, friendsNextCursor (fr c).next ≠ none) :
    (fetchAllPages up 10 none).length ≤ 1000 ∧
      fetchPageCount up 10 none = 10 ∧
      fetchPageCount (friendsPageView fr) 3 none = 3 ∧
      (∀ frAny : Option String → FriendsPage,
        fetchPageCount (friendsPageView frAny) 3 none ≤ 3) := by
  refine ⟨?_, ?_, ?_, ?_⟩
  · exact fetchAllPages_length_le up 100 hlen 10 none
  · exact fetchPageCount_eq_cap up hcur 10 none
  · exact fetchPageCount_eq_cap (friendsPageView fr) (fun c => hfr c) 3 none
  · intro frAny
    exact fetchPageCount_le (friendsPageView frAny) 3 none

/-- A watchlist upstream oracle that always returns a full page and a
next cursor. -/
def c6Up : Option String → UpstreamPage WatchlistFilm :=
  fun _ => ⟨List.replicate 100 c1FilmA, some "cursor"⟩

/-- A friends upstream oracle that always returns a next link. -/
def c6Fr : Option String → FriendsPage :=
  fun _ => ⟨[], some "start=abc"⟩

/-- Witness for claim C6 at concrete never-exhausting upstreams. -/
theorem c6_page_cap_safety_witness :
    (fetchAllPages c6Up 10 none).length ≤ 1000 ∧
      fetchPageCount c6Up 10 none = 10 ∧
      fetchPageCount (friendsPageView c6Fr) 3 none = 3 := by
  have h := c6_page_cap_safety c6Up c6Fr (fun c => by simp [c6Up])
    (fun c => by simp [c6Up])
    (fun c => by
      show friendsNextCursor (some "start=abc") ≠ none
      decide)
  exact ⟨h.1, h.2.1, h.2.2.1⟩

/-! ## Claim C7: failures and unknown catalogs yield empty pages -/

/-- Claim C7: for a catalog read, a failure thrown anywhere in the
selected fetch/transform pipeline is caught and answered with the empty
catalog page; an unknown catalog id is answered with the empty page
without consulting the pipeline; a non-movie type likewise.  No path of
`handleCatalogRequest` propagates an exception. -/
theorem c7_failures_yield_empty (mediaType catalogId : String) (extra : Option String)
    (rand : Nat → Nat) (err : String) (attempt : Except String (List StremioMeta)) :
    handleCatalogRequest mediaType catalogId extra rand (.error err) = [] ∧
      (knownCatalogId catalogId = false →
        handleCatalogRequest "movie" catalogId extra rand attempt = []) ∧
      (mediaType ≠ "movie" →
        handleCatalogRequest mediaType catalogId extra rand attempt = []) := by
  refine ⟨?_, ?_, ?_⟩
  · unfold handleCatalogRequest
    split
    · rfl
    · split
      · rfl
      · rfl
  · intro h
    simp [handleCatalogRequest, h]
  · intro h
    simp [handleCatalogRequest, h]

/-- Witness for claim C7: a thrown pipeline failure, an unknown catalog
id, and a series-type request all produce the empty page. -/
theorem c7_failures_yield_empty_witness :
    handleCatalogRequest "movie" "letterboxd-watchlist" none (fun _ => 0)
        (.error "upstream 500") = [] ∧
      handleCatalogRequest "movie" "some-other-addon" none (fun _ => 0) (.ok c3Coll) = [] ∧
      handleCatalogRequest "series" "letterboxd-watchlist" none (fun _ => 0) (.ok c3Coll) = [] := by
  refine ⟨?_, ?_, ?_⟩
  · exact (c7_failures_yield_empty "movie" "letterboxd-watchlist" none (fun _ => 0)
      "upstream 500" (.ok [])).1
  · exact (c7_failures_yield_empty "movie" "some-other-addon" none (fun _ => 0)
      "err" (.ok c3Coll)).2.1 (by decide)
  · exact (c7_failures_yield_empty "series" "letterboxd-watchlist" none (fun _ => 0)
      "err" (.ok c3Coll)).2.2 (by decide)

/-! ## String-append infrastructure for the cache-key claims -/

/-- Associativity of string concatenation. -/
theorem strAppend_assoc (a b c : String) : a ++ b ++ c = a ++ (b ++ c) := by
  apply String.ext
  simp [String.data_append]

/-- Left cancellation for string concatenation. -/
theorem strAppend_cancel_left (p t u : String) (h : p ++ t = p ++ u) : t = u := by
  have hd : (p ++ t).data = (p ++ u).data := by rw [h]
  simp only [String.data_append] at hd
  exact String.ext (List.append_cancel_left hd)

/-- A character list is a leading segment of itself extended by
anything. -/
theorem charsLeading_append (l r : List Char) : charsLeading l (l ++ r) = true := by
  induction l with
  | nil => simp [charsLeading]
  | cons a as ih => simp [charsLeading, ih]

/-- A string is a prefix of itself extended by anything. -/
theorem strPrefixOf_append (p t : String) : strPrefixOf p (p ++ t) = true := by
  unfold strPrefixOf
  rw [String.data_append]
  exact charsLeading_append p.data t.data

/-- The `showRatings`/`sort` tail shared by the user catalog cache
keys. -/
def catalogKeyTail (showRatings : Bool) (sort : Option LbSort) : String :=
  jsBoolString showRatings ++ (":" ++ sortParam sort)

/-- The tail determines the flag and the sort: all 30 combinations
render to distinct strings (in particular no API sort name is the
literal `"default"`). -/
theorem catalogKeyTail_inj : ∀ (r₁ r₂ : Bool) (s₁ s₂ : Option LbSort),
    catalogKeyTail r₁ s₁ = catalogKeyTail r₂ s₂ → r₁ = r₂ ∧ s₁ = s₂ := by
  decide

/-- The watchlist key splits as user-prefix ++ kind ++ tail. -/
theorem watchlistCacheKey_decompose (uid : String) (r : Bool) (s : Option LbSort) :
    watchlistCacheKey uid r s =
      ("user:" ++ uid ++ ":") ++ ("watchlist:" ++ catalogKeyTail r s) := by
  apply String.ext
  have h1 : (":watchlist:" : String).data = ':' :: ("watchlist:" : String).data := rfl
  have h2 : (":" : String).data = [':'] := rfl
  simp [watchlistCacheKey, catalogKeyTail, String.data_append, h1, h2, List.append_assoc]

/-- The diary key splits as user-prefix ++ kind ++ tail. -/
theorem diaryCacheKey_decompose (uid : String) (r : Bool) (s : Option LbSort) :
    diaryCacheKey uid r s =
      ("user:" ++ uid ++ ":") ++ ("diary:" ++ catalogKeyTail r s) := by
  apply String.ext
  have h1 : (":diary:" : String).data = ':' :: ("diary:" : String).data := rfl
  have h2 : (":" : String).data = [':'] := rfl
  simp [diaryCacheKey, catalogKeyTail, String.data_append, h1, h2, List.append_assoc]

/-- The friends key splits as user-prefix ++ rest. -/
theorem friendsCacheKey_decompose (uid : String) (r : Bool) :
    friendsCacheKey uid r = ("user:" ++ uid ++ ":") ++ ("friends:" ++ jsBoolString r) := by
  apply String.ext
  have h1 : (":friends:" : String).data = ':' :: ("friends:" : String).data := rfl
  have h2 : (":" : String).data = [':'] := rfl
  simp [friendsCacheKey, String.data_append, h1, h2, List.append_assoc]

/-- The liked key splits as user-prefix ++ kind ++ tail. -/
theorem likedCacheKey_decompose (uid : String) (r : Bool) (s : Option LbSort) :
    likedCacheKey uid r s =
      ("user:" ++ uid ++ ":") ++ ("liked:" ++ catalogKeyTail r s) := by
  apply String.ext
  have h1 : (":liked:" : String).data = ':' :: ("liked:" : String).data := rfl
  have h2 : (":" : String).data = [':'] := rfl
  simp [likedCacheKey, catalogKeyTail, String.data_append, h1, h2, List.append_assoc]

/-- The list key splits as user-prefix ++ rest. -/
theorem listCacheKey_decompose (uid listId : String) (r : Bool) (s : Option LbSort) :
    listCacheKey uid listId r s =
      ("user:" ++ uid ++ ":") ++ ("list:" ++ (listId ++ (":" ++ catalogKeyTail r s))) := by
  apply String.ext
  have h1 : (":list:" : String).data = ':' :: ("list:" : String).data := rfl
  have h2 : (":" : String).data = [':'] := rfl
  simp [listCacheKey, catalogKeyTail, String.data_append, h1, h2, List.append_assoc]

/-! ## Claim C4: cache-key isolation -/

/-- Reading back the key just written. -/
theorem cacheGet_cacheSet_self (st : CacheState) (key : String) (v : List StremioMeta) :
    cacheGet (cacheSet st key v) key = some v := by
  simp [cacheGet, cacheSet]

/-- On a per-user cache hit the watchlist fetcher returns the stored
page and leaves the cache untouched. -/
theorem fetchWatchlistCatalog_hit (st : CacheState) (uid : String) (skip : Nat)
    (r : Bool) (s : Option LbSort) (up : Option String → UpstreamPage WatchlistFilm)
    (coll : List StremioMeta)
    (h : cacheGet st (watchlistCacheKey uid r s) = some coll) :
    fetchWatchlistCatalog st uid skip r s up =
      (jsSlice coll skip (skip + CATALOG_PAGE_SIZE), st) := by
  simp only [fetchWatchlistCatalog, getUserCatalogCached, h, Option.map_some']

/-- On a per-user cache miss the watchlist fetcher runs the pipeline,
stores the whole transformed collection and returns its page slice. -/
theorem fetchWatchlistCatalog_miss (st : CacheState) (uid : String) (skip : Nat)
    (r : Bool) (s : Option LbSort) (up : Option String → UpstreamPage WatchlistFilm)
    (h : cacheGet st (watchlistCacheKey uid r s) = none) :
    fetchWatchlistCatalog st uid skip r s up =
      (jsSlice (transformWatchlistToMetas (fetchAllPages up 10 none) r) skip
          (skip + CATALOG_PAGE_SIZE),
        cacheSet st (watchlistCacheKey uid r s)
          (transformWatchlistToMetas (fetchAllPages up 10 none) r)) := by
  simp only [fetchWatchlistCatalog, getUserCatalogCached, h, Option.map_none', setUserCatalog]

/-- Claim C4: the cache key is a function of subject, kind, show-ratings
flag and sort only.  Keys of the same user and kind agree exactly when
flag and sort agree (so requests differing in `sort` or `showRatings`
never share a cached collection) — shown for the watchlist and the liked
kinds; and the skip offset does not enter the key: after a miss at
`skip₁` populates the cache, a request at any other `skip₂` — even
against a changed upstream — is served from the very collection stored by
the first request. -/
theorem c4_cache_key_isolation (uid : String) (r₁ r₂ : Bool) (s₁ s₂ : Option LbSort)
    (st : CacheState) (skip₁ skip₂ : Nat)
    (up upTwo : Option String → UpstreamPage WatchlistFilm)
    (hmiss : cacheGet st (watchlistCacheKey uid r₁ s₁) = none) :
    (watchlistCacheKey uid r₁ s₁ = watchlistCacheKey uid r₂ s₂ ↔ (r₁ = r₂ ∧ s₁ = s₂)) ∧
      (likedCacheKey uid r₁ s₁ = likedCacheKey uid r₂ s₂ ↔ (r₁ = r₂ ∧ s₁ = s₂)) ∧
      (fetchWatchlistCatalog ((fetchWatchlistCatalog st uid skip₁ r₁ s₁ up).2)
          uid skip₂ r₁ s₁ upTwo).1 =
        jsSlice (transformWatchlistToMetas (fetchAllPages up 10 none) r₁) skip₂
          (skip₂ + CATALOG_PAGE_SIZE) := by
  refine ⟨⟨?_, ?_⟩, ⟨?_, ?_⟩, ?_⟩
  · intro h
    rw [watchlistCacheKey_decompose uid r₁ s₁, watchlistCacheKey_decompose uid r₂ s₂] at h
    have h1 := strAppend_cancel_left _ _ _ h
    have h2 := strAppend_cancel_left _ _ _ h1
    exact catalogKeyTail_inj r₁ r₂ s₁ s₂ h2
  · rintro ⟨rfl, rfl⟩; rfl
  · intro h
    rw [likedCacheKey_decompose uid r₁ s₁, likedCacheKey_decompose uid r₂ s₂] at h
    have h1 := strAppend_cancel_left _ _ _ h
    have h2 := strAppend_cancel_left _ _ _ h1
    exact catalogKeyTail_inj r₁ r₂ s₁ s₂ h2
  · rintro ⟨rfl, rfl⟩; rfl
  · rw [fetchWatchlistCatalog_miss st uid skip₁ r₁ s₁ up hmiss]
    rw [fetchWatchlistCatalog_hit _ uid skip₂ r₁ s₁ upTwo _
      (cacheGet_cacheSet_self st (watchlistCacheKey uid r₁ s₁)
        (transformWatchlistToMetas (fetchAllPages up 10 none) r₁))]

/-- Witness for claim C4: at the concrete user `"u1"`, flipping the
show-ratings flag changes the watchlist key, while a second request with
a different skip (and a dead upstream) is served from the collection
fetched by the first. -/
theorem c4_cache_key_isolation_witness :
    watchlistCacheKey "u1" true none ≠ watchlistCacheKey "u1" false none ∧
      (fetchWatchlistCatalog ((fetchWatchlistCatalog [] "u1" 0 true none c6Up).2)
          "u1" 5 true none c3Up).1 =
        jsSlice (transformWatchlistToMetas (fetchAllPages c6Up 10 none) true) 5
          (5 + CATALOG_PAGE_SIZE) := by
  have h := c4_cache_key_isolation "u1" true false none none [] 0 5 c6Up c3Up rfl
  refine ⟨?_, h.2.2⟩
  intro heq
  exact Bool.noConfusion (h.1.mp heq).1

/-! ## Claim C2: shuffle semantics -/

/-- When the `"Shuffle"` label is selected, `parseSortAndSkip` leaves
`sort` undefined, so the underlying fetch uses the default-sort cache
key. -/
theorem parseSortAndSkip_shuffle_sort_none (extra : Option String)
    (h : (parseSortAndSkip extra).isShuffle = true) :
    (parseSortAndSkip extra).sort = none := by
  simp only [parseSortAndSkip] at h ⊢
  cases hsl : paramsGet (parseExtra extra) "genre" with
  | none => simp [hsl]
  | some label =>
    rw [hsl] at h
    have hlab : label = "Shuffle" := by simpa using h
    simp [hlab]

/-- Claim C2, amended: a `Shuffle` request leaves the sort undefined
(hence uses the default-sort cache key, sharing one cached collection
with non-shuffled default requests); its response is a random
permutation of the requested PAGE SLICE of the cached collection (not of
the whole collection — see the counterexample); the shuffled order is
never stored (the cache state equals that of a non-shuffled request);
and two shuffle responses over the same unchanged cached collection and
skip carry the same multiset of `externalId`s. -/
theorem c2_shuffle_amended (st : CacheState) (uid : String) (skip : Nat) (r : Bool)
    (extra : Option String) (rand randTwo : Nat → Nat)
    (up : Option String → UpstreamPage WatchlistFilm) (coll : List StremioMeta)
    (hshuffle : (parseSortAndSkip extra).isShuffle = true)
    (hhit : cacheGet st (watchlistCacheKey uid r none) = some coll) :
    (parseSortAndSkip extra).sort = none ∧
      watchlistCacheKey uid r ((parseSortAndSkip extra).sort) =
        watchlistCacheKey uid r none ∧
      List.Perm
        (handleWatchlistBranch st uid skip r ((parseSortAndSkip extra).sort) true rand up).1
        (jsSlice coll skip (skip + CATALOG_PAGE_SIZE)) ∧
      (handleWatchlistBranch st uid skip r ((parseSortAndSkip extra).sort) true rand up).2 =
        (handleWatchlistBranch st uid skip r none false rand up).2 ∧
      List.Perm
        ((handleWatchlistBranch st uid skip r none true rand up).1.map (fun m => m.id))
        ((handleWatchlistBranch st uid skip r none true randTwo up).1.map (fun m => m.id)) := by
  have hsort := parseSortAndSkip_shuffle_sort_none extra hshuffle
  have hfetch := fetchWatchlistCatalog_hit st uid skip r none up coll hhit
  have e1 : ∀ rd : Nat → Nat, handleWatchlistBranch st uid skip r none true rd up =
      (shuffleArray (jsSlice coll skip (skip + CATALOG_PAGE_SIZE)) rd, st) := by
    intro rd
    simp [handleWatchlistBranch, hfetch]
  have e2 : handleWatchlistBranch st uid skip r none false rand up =
      (jsSlice coll skip (skip + CATALOG_PAGE_SIZE), st) := by
    simp [handleWatchlistBranch, hfetch]
  refine ⟨hsort, by rw [hsort], ?_, ?_, ?_⟩
  · rw [hsort, e1 rand]
    exact shuffleArray_perm _ rand
  · rw [hsort, e1 rand, e2]
  · rw [e1 rand, e1 randTwo]
    exact ((shuffleArray_perm _ rand).map _).trans
      (((shuffleArray_perm _ randTwo).map _).symm)

/-- A cache state holding the two-item collection under user `"u2"`'s
default watchlist key. -/
def c2WSt : CacheState := [(watchlistCacheKey "u2" true none, c3Coll)]

/-- Witness for claim C2 (amended) at the concrete extra string
`"genre=Shuffle"`. -/
theorem c2_shuffle_amended_witness :
    (parseSortAndSkip (some "genre=Shuffle")).sort = none ∧
      List.Perm
        (handleWatchlistBranch c2WSt "u2" 0 true
          ((parseSortAndSkip (some "genre=Shuffle")).sort) true (fun _ => 0) c3Up).1
        (jsSlice c3Coll 0 (0 + CATALOG_PAGE_SIZE)) := by
  have h := c2_shuffle_amended c2WSt "u2" 0 true (some "genre=Shuffle")
    (fun _ => 0) (fun _ => 1) c3Up c3Coll (by decide) rfl
  exact ⟨h.1, h.2.2.1⟩

/-- A 101-item cached collection: one more than the page size. -/
def c2BigColl : List StremioMeta :=
  (List.range 101).map (fun n => { id := toString n, name := "F" })

/-- A cache state holding the 101-item collection under user `"u9"`'s
default watchlist key. -/
def c2BigSt : CacheState := [(watchlistCacheKey "u9" true none, c2BigColl)]

/-- Claim C2, counterexample: the shuffle is applied to the requested
page slice, not to the full cached collection — with a 101-item cached
collection the shuffle response at `skip = 0` has 100 items and so is
not a permutation of the full collection, contradicting the claim as
stated. -/
theorem c2_full_collection_counterexample :
    ¬ List.Perm (handleWatchlistBranch c2BigSt "u9" 0 true none true (fun _ => 0) c3Up).1
        c2BigColl := by
  have hhit : cacheGet c2BigSt (watchlistCacheKey "u9" true none) = some c2BigColl := rfl
  have e1 : handleWatchlistBranch c2BigSt "u9" 0 true none true (fun _ => 0) c3Up =
      (shuffleArray (jsSlice c2BigColl 0 (0 + CATALOG_PAGE_SIZE)) (fun _ => 0), c2BigSt) := by
    simp [handleWatchlistBranch,
      fetchWatchlistCatalog_hit c2BigSt "u9" 0 true none c3Up c2BigColl hhit]
  intro hperm
  have hlen := hperm.length_eq
  rw [e1] at hlen
  simp only [] at hlen
  have h2 : (shuffleArray (jsSlice c2BigColl 0 (0 + CATALOG_PAGE_SIZE)) (fun _ => 0)).length =
      (jsSlice c2BigColl 0 (0 + CATALOG_PAGE_SIZE)).length := (shuffleArray_perm _ _).length_eq
  have h4 : c2BigColl.length = 101 := by simp [c2BigColl]
  have h3 : (jsSlice c2BigColl 0 (0 + CATALOG_PAGE_SIZE)).length = 100 := by
    rw [jsSlice_page_length, h4]
    rfl
  omega

/-! ## Claim C5: invalidation completeness -/

/-- After prefix invalidation, no key carrying the user's prefix is
present. -/
theorem cacheGet_invalidate_none (st : CacheState) (uid key : String)
    (h : strPrefixOf ("user:" ++ uid ++ ":") key = true) :
    cacheGet (invalidateUserCatalogs st uid) key = none := by
  unfold cacheGet invalidateUserCatalogs
  have hfind : (st.filter fun e => !(strPrefixOf ("user:" ++ uid ++ ":") e.1)).find?
      (fun e => e.1 == key) = none := by
    rw [List.find?_eq_none]
    intro x hx hbeq
    have h2 := (List.mem_filter.mp hx).2
    have h3 : x.1 = key := by simpa using hbeq
    rw [h3] at h2
    simp [h] at h2
  rw [hfind]
  rfl

/-- Claim C5: after a successful mutating upstream call the route
handler invalidates the user's catalog caches before responding, so
every per-user cache key — across all catalog kinds, flags and sorts —
is absent afterwards, and the next catalog request re-runs the full
fetch pipeline (shown for the watchlist fetcher); a failed mutation
leaves the cache untouched. -/
theorem c5_invalidation_completeness (st : CacheState) (uid listId : String)
    (r : Bool) (s : Option LbSort) (skip : Nat) (rel : FilmRelationship)
    (err : String) (up : Option String → UpstreamPage WatchlistFilm) :
    cacheGet (actionRouteCacheEffect st uid (.ok rel)).2 (watchlistCacheKey uid r s) = none ∧
      cacheGet (actionRouteCacheEffect st uid (.ok rel)).2 (diaryCacheKey uid r s) = none ∧
      cacheGet (actionRouteCacheEffect st uid (.ok rel)).2 (friendsCacheKey uid r) = none ∧
      cacheGet (actionRouteCacheEffect st uid (.ok rel)).2 (likedCacheKey uid r s) = none ∧
      cacheGet (actionRouteCacheEffect st uid (.ok rel)).2 (listCacheKey uid listId r s) = none ∧
      (fetchWatchlistCatalog (actionRouteCacheEffect st uid (.ok rel)).2 uid skip r s up).1 =
        jsSlice (transformWatchlistToMetas (fetchAllPages up 10 none) r) skip
          (skip + CATALOG_PAGE_SIZE) ∧
      (actionRouteCacheEffect st uid (.error err)).2 = st := by
  have hwl : cacheGet (invalidateUserCatalogs st uid) (watchlistCacheKey uid r s) = none := by
    apply cacheGet_invalidate_none
    rw [watchlistCacheKey_decompose]
    exact strPrefixOf_append _ _
  refine ⟨hwl, ?_, ?_, ?_, ?_, ?_, rfl⟩
  · apply cacheGet_invalidate_none
    rw [diaryCacheKey_decompose]
    exact strPrefixOf_append _ _
  · apply cacheGet_invalidate_none
    rw [friendsCacheKey_decompose]
    exact strPrefixOf_append _ _
  · apply cacheGet_invalidate_none
    rw [likedCacheKey_decompose]
    exact strPrefixOf_append _ _
  · apply cacheGet_invalidate_none
    rw [listCacheKey_decompose]
    exact strPrefixOf_append _ _
  · rw [show (actionRouteCacheEffect st uid (.ok rel)).2 = invalidateUserCatalogs st uid from rfl]
    rw [fetchWatchlistCatalog_miss _ uid skip r s up hwl]

/-! ## Claim C8: poster selection -/

/-- The last element of a list is a member. -/
theorem getLast?_mem_of_eq {α : Type} (l : List α) (s : α) (h : l.getLast? = some s) :
    s ∈ l := by
  induction l with
  | nil => simp at h
  | cons a t ih =>
    cases t with
    | nil =>
      simp [List.getLast?] at h
      simp [h]
    | cons b t' =>
      rw [List.getLast?_cons_cons] at h
      exact List.mem_cons_of_mem a (ih h)

/-- A non-empty list has a last element. -/
theorem getLast?_isSome_of_ne_nil {α : Type} (l : List α) (h : l ≠ []) :
    ∃ s, l.getLast? = some s := by
  cases l with
  | nil => exact absurd rfl h
  | cons a t => exact ⟨(a :: t).getLast (by simp), List.getLast?_eq_getLast _ _⟩

/-- In a width-sorted size list, the last element has maximal width. -/
theorem sorted_last_max (l : List PosterSize)
    (hs : l.Pairwise (fun a b => a.width ≤ b.width)) :
    ∀ s, l.getLast? = some s → ∀ v ∈ l, v.width ≤ s.width := by
  induction l with
  | nil => intro s hsome; simp at hsome
  | cons a t ih =>
    intro s hsome v hv
    cases t with
    | nil =>
      simp [List.getLast?] at hsome
      rcases List.mem_singleton.mp hv with rfl
      rw [hsome]
    | cons b t' =>
      rw [List.getLast?_cons_cons] at hsome
      have hpair := List.pairwise_cons.mp hs
      rcases List.mem_cons.mp hv with rfl | hv'
      · exact hpair.1 s (getLast?_mem_of_eq _ s hsome)
      · exact ih hpair.2 s hsome v hv'

/-- Distance of a width from the 300 px target. -/
def distTo300 (w : Nat) : Nat := if w ≤ 300 then 300 - w else w - 300

/-- Modelled from the spec's words, for comparison with the source's
`getPosterUrl` only: the variant "whose width is closest to 300 pixels"
(first minimizer of the distance to 300). -/
def specClosestTo300 : List PosterSize → Option PosterSize
  | [] => none
  | s :: rest =>
    some (rest.foldl (fun best c =>
      if distTo300 c.width < distTo300 best.width then c else best) s)

/-- A film whose poster has a 290 px variant (closest to 300) and a
600 px variant (last/largest). -/
def c8Film : WatchlistFilm :=
  { id := "film8", name := "Film 8",
    poster := some ⟨[⟨290, "u290"⟩, ⟨600, "u600"⟩]⟩ }

/-- Claim C8, counterexample: with variants of widths 290 and 600 the
closest-to-300 variant is the 290 px one, but `getPosterUrl` returns the
600 px URL — the source matches width 300 exactly and otherwise takes
the last variant, it never computes a closest match. -/
theorem c8_poster_counterexample :
    getPosterUrl c8Film = some "u600" ∧
      (specClosestTo300 [⟨290, "u290"⟩, ⟨600, "u600"⟩]).map (fun s => s.url) = some "u290" ∧
      ("u600" : String) ≠ "u290" :=
  ⟨rfl, rfl, by decide⟩

/-- Claim C8, amended: for a film whose poster has a non-empty list of
size variants, poster selection returns the URL of the first variant
whose width is EXACTLY 300 when one exists, and otherwise the URL of the
last listed variant — which is the largest when the list is sorted by
increasing width. -/
theorem c8_poster_selection_amended (film : WatchlistFilm) (poster : FilmPoster)
    (hp : film.poster = some poster) (hne : poster.sizes ≠ []) :
    (∀ s, poster.sizes.find? (fun v => v.width == 300) = some s →
        getPosterUrl film = some s.url) ∧
      (poster.sizes.find? (fun v => v.width == 300) = none →
        ∃ s, poster.sizes.getLast? = some s ∧ getPosterUrl film = some s.url ∧
          (poster.sizes.Pairwise (fun a b => a.width ≤ b.width) →
            ∀ v ∈ poster.sizes, v.width ≤ s.width)) := by
  have hempty : poster.sizes.isEmpty = false := by
    cases hs : poster.sizes with
    | nil => exact absurd hs hne
    | cons a t => rfl
  constructor
  · intro s hfind
    simp only [getPosterUrl, hp, hempty, hfind]
    simp
  · intro hfind
    obtain ⟨s, hlast⟩ := getLast?_isSome_of_ne_nil poster.sizes hne
    refine ⟨s, hlast, ?_, fun hsorted v hv => sorted_last_max poster.sizes hsorted s hlast v hv⟩
    simp only [getPosterUrl, hp, hempty, hfind, hlast]
    simp

/-- A film whose poster has an exact 300 px variant. -/
def c8WitnessFilm : WatchlistFilm :=
  { id := "film8w", name := "Film 8w",
    poster := some ⟨[⟨100, "u100"⟩, ⟨300, "u300"⟩]⟩ }

/-- Witness for claim C8 (amended): the exact 300 px variant wins. -/
theorem c8_poster_selection_amended_witness :
    getPosterUrl c8WitnessFilm = some "u300" := by
  have h := c8_poster_selection_amended c8WitnessFilm ⟨[⟨100, "u100"⟩, ⟨300, "u300"⟩]⟩
    rfl (by decide)
  exact h.1 ⟨300, "u300"⟩ rfl

/-! ## Claim C9: session cache and refresh -/

/-- Claim C9: `createClientForUser` returns the cached handle exactly
when its expiry is more than 60 s beyond `now` (leaving all state
untouched); otherwise it refreshes: the returned client carries the new
tokens, the session-cache entry is replaced with the new handle and
expiry `now + expires_in·1000`, the user record ends up holding the
(possibly rotated) refresh credential — with its expiry persisted when
the credential actually rotated. -/
theorem c9_session_refresh (st : SessionState) (letterboxdId : String) (now : Int)
    (tokens : TokenResponse) :
    (∀ cached, st.cachedClient = some cached → cached.expiresAt > now + 60000 →
        createClientForUser st letterboxdId now tokens = (cached.client, st)) ∧
      ((st.cachedClient = none ∨
          ∃ cached, st.cachedClient = some cached ∧ ¬ cached.expiresAt > now + 60000) →
        (createClientForUser st letterboxdId now tokens).1 =
            ⟨tokens.access_token, tokens.refresh_token, letterboxdId⟩ ∧
          (createClientForUser st letterboxdId now tokens).2.cachedClient =
            some ⟨⟨tokens.access_token, tokens.refresh_token, letterboxdId⟩,
              now + tokens.expires_in * 1000⟩ ∧
          (createClientForUser st letterboxdId now tokens).2.storedRefreshToken =
            tokens.refresh_token ∧
          (tokens.refresh_token ≠ st.storedRefreshToken →
            (createClientForUser st letterboxdId now tokens).2.storedTokenExpiresAt =
              some (now + tokens.expires_in * 1000))) := by
  have hrefresh :
      (createClientRefreshPath st letterboxdId now tokens).1 =
          ⟨tokens.access_token, tokens.refresh_token, letterboxdId⟩ ∧
        (createClientRefreshPath st letterboxdId now tokens).2.cachedClient =
          some ⟨⟨tokens.access_token, tokens.refresh_token, letterboxdId⟩,
            now + tokens.expires_in * 1000⟩ ∧
        (createClientRefreshPath st letterboxdId now tokens).2.storedRefreshToken =
          tokens.refresh_token ∧
        (tokens.refresh_token ≠ st.storedRefreshToken →
          (createClientRefreshPath st letterboxdId now tokens).2.storedTokenExpiresAt =
            some (now + tokens.expires_in * 1000)) := by
    by_cases hrot : tokens.refresh_token = st.storedRefreshToken
    · simp [createClientRefreshPath, hrot]
    · simp [createClientRefreshPath, hrot]
  constructor
  · intro cached hc hfresh
    simp [createClientForUser, hc, hfresh]
  · intro hmiss
    rcases hmiss with hnone | ⟨cached, hc, hstale⟩
    · simpa [createClientForUser, hnone] using hrefresh
    · simpa [createClientForUser, hc, hstale] using hrefresh

/-- A still-fresh session entry. -/
def c9FreshEntry : ClientCacheEntry := ⟨⟨"at0", "rt0", "lbid"⟩, 1000000⟩

/-- A session state whose cached client is fresh at `now = 0`. -/
def c9FreshSt : SessionState := ⟨some c9FreshEntry, "rt0", none⟩

/-- A session state whose cached client has long expired at
`now = 500000`. -/
def c9StaleSt : SessionState := ⟨some ⟨⟨"at0", "rt0", "lbid"⟩, 1000⟩, "rt0", none⟩

/-- The token-endpoint response used in the witness. -/
def c9Tokens : TokenResponse := ⟨"newat", "newrt", 3600⟩

/-- Witness for claim C9: the fresh entry is returned unchanged; the
stale state triggers a refresh that returns the new handle, replaces the
cache entry and persists the rotated credential. -/
theorem c9_session_refresh_witness :
    createClientForUser c9FreshSt "lbid" 0 c9Tokens = (c9FreshEntry.client, c9FreshSt) ∧
      (createClientForUser c9StaleSt "lbid" 500000 c9Tokens).1 =
        ⟨"newat", "newrt", "lbid"⟩ ∧
      (createClientForUser c9StaleSt "lbid" 500000 c9Tokens).2.storedRefreshToken =
        "newrt" := by
  have h1 := (c9_session_refresh c9FreshSt "lbid" 0 c9Tokens).1 c9FreshEntry rfl (by decide)
  have h2 := (c9_session_refresh c9StaleSt "lbid" 500000 c9Tokens).2
    (Or.inr ⟨⟨⟨"at0", "rt0", "lbid"⟩, 1000⟩, rfl, by decide⟩)
  exact ⟨h1, h2.1, h2.2.2.1⟩
